import Mathlib

/-!
Shallow embedding of the Audial SDK stem-splitting workflow
(src/audial/functions/stem_split.py) and the CLI glue it serves.

Python values flowing through the workflow (JSON payloads from the remote
service) are modelled by the inductive type `PyVal`; machine floats are
modelled by rational numbers (the backoff formula uses only small decimal
literals); exceptions are modelled by `PyErr` together with `Except`.
External effects (HTTP calls, sleeping, directory creation) are modelled by
an environment record supplying each call's outcome, and the observable
side effects are collected in an explicit trace.
-/

namespace Audial

/-- A Python value, restricted to the shapes that flow through
`stem_split`: `None`, strings, ints, floats (as rationals), dicts
(association lists in insertion order, as Python dicts iterate) and lists. -/
inductive PyVal where
  | none
  | str (s : String)
  | int (n : Int)
  | num (q : ℚ)
  | dict (entries : List (String × PyVal))
  | list (xs : List PyVal)
deriving Repr

/-- First binding of a key in an association list (Python dict lookup). -/
def lookupAssoc (k : String) : List (String × PyVal) → Option PyVal
  | [] => Option.none
  | (k', v) :: rest => if k' = k then some v else lookupAssoc k rest

/-- Python `d.get(k)`: `None` when the key is absent.  Only meaningful on
dicts; callers of the model apply it where the source has already
established the receiver is a dict. -/
def PyVal.get (p : PyVal) (k : String) : PyVal :=
  match p with
  | .dict es => match lookupAssoc k es with
    | some v => v
    | Option.none => .none
  | _ => .none

/-- Python `d.get(k, default)`. -/
def PyVal.getD (p : PyVal) (k : String) (d : PyVal) : PyVal :=
  match p with
  | .dict es => match lookupAssoc k es with
    | some v => v
    | Option.none => d
  | _ => d

/-- Python truthiness for the modelled values. -/
def PyVal.truthy : PyVal → Bool
  | .none => false
  | .str s => !s.isEmpty
  | .int n => n != 0
  | .num q => q != 0
  | .dict es => !es.isEmpty
  | .list xs => !xs.isEmpty

/-- Is the value a dict (`isinstance(x, dict)`)? -/
def PyVal.isDict : PyVal → Bool
  | .dict _ => true
  | _ => false

/-- Python `str(v)` as used in f-strings, for the value shapes that reach
one in this workflow (`None` renders as the four-letter word "None";
strings render as themselves). Container renderings are approximate and
are never exercised by the source paths modelled here. -/
def pyStr : PyVal → String
  | .none => "None"
  | .str s => s
  | .int n => toString n
  | .num q => toString q
  | .dict _ => "<dict>"
  | .list _ => "<list>"

/-- Exceptions raised inside the workflow.  `audialError` models
`AudialError` (a regular `Exception` subclass, as witnessed by the
`except AudialError` / `except Exception` ladder in
src/audial/cli/commands.py); `valueError` models `ValueError`;
`exn` models any other exception, carrying `str(e)`. -/
inductive PyErr where
  | audialError (msg : String)
  | valueError (msg : String)
  | exn (msg : String)
deriving Repr, DecidableEq

/-- Message `str(e)` of a modelled exception. -/
def PyErr.msg : PyErr → String
  | .audialError m => m
  | .valueError m => m
  | .exn m => m

/-! Polling loop (src/audial/functions/stem_split.py lines 176-213). -/

/-- Constant `max_retries = 20` (line 176). -/
def max_retries : Nat := 20

/-- Constant `backoff = 5` (line 177): initial backoff in seconds; the
variable is never reassigned in the source. -/
def backoff : ℚ := 5

/-- Constant `max_backoff = 30` (line 178). -/
def max_backoff : ℚ := 30

/-- Constant `max_processing_time = 10 * 60` (line 179): 10 minutes in
seconds, written here as the product's value 600 so that concrete runs
reduce inside the kernel (rational multiplication does not; see
`max_processing_time_eq` below for the product form). -/
def max_processing_time : ℚ := 600

/-- Backoff formula `min(max_backoff, backoff * (1 + attempt * 0.1))`
(line 207), with the decimal literal 0.1 read as the rational 1/10. -/
def wait_time (attempt : Nat) : ℚ :=
  min max_backoff (backoff * (1 + (attempt : ℚ) * (1/10)))

/-- Outcome of one `proxy.get_execution` call: either the call raised
(any transport exception) or it returned a Python value. -/
inductive QueryOutcome where
  | raises
  | returns (p : PyVal)
deriving Repr

/-- Classification of `result.get("state")` as tested on lines 193-207:
`completed`, `failed`, any other state value (including a missing key,
where `.get` yields `None`), or the receiver not being a dict at all, in
which case `result.get` raises `AttributeError` inside the `try`. -/
inductive StateClass where
  | completed
  | failed
  | other
  | attrError
deriving Repr, DecidableEq

/-- Classify a fetched payload the way lines 193-207 test it. -/
def stateOf (p : PyVal) : StateClass :=
  match p with
  | .dict es =>
    match lookupAssoc "state" es with
    | some (.str "completed") => .completed
    | some (.str "failed") => .failed
    | _ => .other
  | _ => .attrError

/-- How the polling loop ended: either the deadline check on lines 183-187
raised (carrying the elapsed time), or the `for` loop finished — by
`break` on `completed` or by exhausting `range(max_retries)` — leaving
the `result` variable with the recorded value. -/
inductive PollOutcome where
  | timeout (elapsed : ℚ)
  | finished (result : PyVal)
deriving Repr

/-- Observable trace of one polling run: how many `get_execution` calls
were made, the sleep durations in order, and how the loop ended. -/
structure PollTrace where
  queries : Nat
  sleeps : List ℚ
  outcome : PollOutcome
deriving Repr

/-- The body of the polling `for` loop (lines 182-213), one constructor
per iteration.  `env i` is the outcome of the `get_execution` call of
attempt `i`; `elapsedAt i` is `time.time() - start_time` measured at the
top of attempt `i`; `result` is the current value of the Python `result`
variable; `fuel` is the number of attempts remaining in `range(max_retries)`.

Faithful details:
* the deadline test (lines 183-187) runs before the `try`, so its raise
  propagates;
* a raise inside the `try` — a transport error from `get_execution`, the
  `AttributeError` from `result.get` on a non-dict, or the
  `AudialError` raised on line 204 for the `failed` state — is caught by
  the bare `except Exception` on line 211, which sleeps the fixed
  `backoff` and lets the loop continue;
* only the non-terminal branch (line 207-209) sleeps the growing
  `wait_time attempt`. -/
def poll_loop (env : Nat → QueryOutcome) (elapsedAt : Nat → ℚ) :
    Nat → PyVal → Nat → PollTrace
  | _, result, 0 => ⟨0, [], .finished result⟩
  | i, result, fuel + 1 =>
    if elapsedAt i > max_processing_time then
      ⟨0, [], .timeout (elapsedAt i)⟩
    else
      match env i with
      | .raises =>
        let t := poll_loop env elapsedAt (i + 1) result fuel
        ⟨t.queries + 1, backoff :: t.sleeps, t.outcome⟩
      | .returns p =>
        match stateOf p with
        | .completed => ⟨1, [], .finished p⟩
        | .failed =>
          let t := poll_loop env elapsedAt (i + 1) p fuel
          ⟨t.queries + 1, backoff :: t.sleeps, t.outcome⟩
        | .attrError =>
          let t := poll_loop env elapsedAt (i + 1) p fuel
          ⟨t.queries + 1, backoff :: t.sleeps, t.outcome⟩
        | .other =>
          let t := poll_loop env elapsedAt (i + 1) p fuel
          ⟨t.queries + 1, wait_time i :: t.sleeps, t.outcome⟩

/-- The full polling phase as entered on line 182: attempt 0, the Python
`result` variable holding `None`, the full attempt budget. -/
def poll (env : Nat → QueryOutcome) (elapsedAt : Nat → ℚ) : PollTrace :=
  poll_loop env elapsedAt 0 .none max_retries

/-! Result validation (lines 216-221). -/

/-- Line 220 read positively: the payload is a dict containing a key
"stem" bound to a non-empty dict. -/
def hasStemData (result : PyVal) : Bool :=
  match result with
  | .dict es =>
    match lookupAssoc "stem" es with
    | some (.dict ss) => !ss.isEmpty
    | _ => false
  | _ => false

/-- Lines 216-221: `if not result or not isinstance(result, dict)` raise
"Failed to retrieve execution results"; then `if "stem" not in result or
not isinstance(result["stem"], dict) or not result["stem"]` raise
"No stem data found in execution result"; otherwise hand back the entries
of `result["stem"]` for URL construction. -/
def check_stem_result (result : PyVal) : Except PyErr (List (String × PyVal)) :=
  if !result.truthy || !result.isDict then
    .error (.audialError "Failed to retrieve execution results")
  else
    match result with
    | .dict es =>
      match lookupAssoc "stem" es with
      | some (.dict ss) =>
        if ss.isEmpty then
          .error (.audialError "No stem data found in execution result")
        else
          .ok ss
      | _ => .error (.audialError "No stem data found in execution result")
    | _ => .error (.audialError "No stem data found in execution result")

/-! Stem URL construction (lines 227-254). -/

/-- Modelled from the spec: `EXECUTION_TYPE_STEM` is imported from
audial/api/constants.py, which is not under src/.  The results folder for
a stem job is named from it (line 260); the spec's job kind for this
operation is "stem", matching the result section key used on line 220
and the path segment used on line 249. -/
def EXECUTION_TYPE_STEM : String := "stem"

/-- Python `s.rstrip("/")`: drop every trailing slash (line 249 applies it
to `API_BASE_URL`).  `API_BASE_URL` itself comes from
audial/api/constants.py, which is not under src/, so the model keeps it as
an explicit `api_base_url` argument everywhere. -/
def rstripSlash (s : String) : String :=
  String.mk ((s.toList.reverse.dropWhile (fun c => c == '/')).reverse)

/-- The f-string of line 249: base URL with trailing slashes stripped,
then the path segments `files`, the user id, `execution`, the execution
id (str-formatted), the literal kind `stem`, and the filename. -/
def synth_stem_url (api_base_url user_id : String) (result_exe_id : PyVal)
    (filename : String) : String :=
  rstripSlash api_base_url ++ "/files/" ++ user_id ++ "/execution/" ++
    pyStr result_exe_id ++ "/stem/" ++ filename

/-- One iteration of the URL-construction loop (lines 233-254) for entry
`(stem_key, stem_info)` of the stem data, producing the value appended to
`stem_urls`:

* if `stem_info` is a dict with a truthy "url" entry, that value is used
  unchanged (lines 235-237);
* otherwise the filename is `stem_info.get("filename")` when `stem_info`
  is a dict — `None` when the key is absent, which the f-string renders
  as the string "None" — or `stem_key + ".mp3"` when it is not (line
  240), and the URL is synthesized by `synth_stem_url`.

The variable `stem_name` computed on lines 242-246 is never used by the
source, so it has no counterpart here.  The write-back
`stem_info["url"] = stem_url` of line 254 mutates the payload after the
URL has been appended and never feeds back into `stem_urls`; the model
leaves the payload unmutated. -/
def stem_url_for (api_base_url user_id : String) (result_exe_id : PyVal)
    (stem_key : String) (stem_info : PyVal) : PyVal :=
  match stem_info with
  | .dict es =>
    match lookupAssoc "url" es with
    | some u =>
      if u.truthy then u
      else
        .str (synth_stem_url api_base_url user_id result_exe_id
          (pyStr (PyVal.get (.dict es) "filename")))
    | Option.none =>
      .str (synth_stem_url api_base_url user_id result_exe_id
        (pyStr (PyVal.get (.dict es) "filename")))
  | _ =>
    .str (synth_stem_url api_base_url user_id result_exe_id
      (stem_key ++ ".mp3"))

/-- The URL-construction loop over `stems_data.items()` in insertion
order (lines 232-254). -/
def build_stem_urls (api_base_url user_id : String) (result_exe_id : PyVal)
    (entries : List (String × PyVal)) : List PyVal :=
  entries.map fun e => stem_url_for api_base_url user_id result_exe_id e.1 e.2

/-! Download phase (lines 258-299). -/

/-- Characters strictly before the first occurrence of `c`, or the whole
list when `c` does not occur. -/
def takeUntilChar (c : Char) : List Char → List Char
  | [] => []
  | x :: xs => if x == c then [] else x :: takeUntilChar c xs

/-- Characters after the first scheme separator "://", when present. -/
def dropScheme : List Char → Option (List Char)
  | [] => Option.none
  | ':' :: '/' :: '/' :: rest => some rest
  | _ :: rest => dropScheme rest

/-- Suffix starting at the first slash, or empty when there is none. -/
def fromFirstSlash : List Char → List Char
  | [] => []
  | '/' :: rest => '/' :: rest
  | _ :: rest => fromFirstSlash rest

/-- Characters after the last slash (the whole list when there is no
slash). -/
def afterLastSlash (cs : List Char) : List Char :=
  cs.foldl (fun acc c => if c == '/' then [] else acc ++ [c]) []

/-- Path component of `urlparse(url)`: the fragment (after the first
hash) and the query (after the first question mark) are cut off; when a
scheme separator is present, the authority (up to the next slash) is
skipped, otherwise the remainder is the path.  Only the final
slash-separated component is ever consumed by the source (via
`os.path.basename`), for which this simplified parse agrees with
`urllib.parse.urlparse`. -/
def urlPath (s : String) : String :=
  let base := takeUntilChar '?' (takeUntilChar '#' s.toList)
  match dropScheme base with
  | some rest => String.mk (fromFirstSlash rest)
  | Option.none => String.mk base

/-- Python `os.path.basename`: everything after the last slash. -/
def basename (p : String) : String :=
  String.mk (afterLastSlash p.toList)

/-- Python dict assignment `d[k] = v`: replace in place when the key
exists, append otherwise (insertion order preserved). -/
def dictInsert (acc : List (String × String)) (k v : String) :
    List (String × String) :=
  if acc.any (fun e => e.1 == k) then
    acc.map (fun e => if e.1 == k then (k, v) else e)
  else
    acc ++ [(k, v)]

/-- The download loop of lines 266-287 restricted to its observable
bookkeeping: for each URL, the local filename is the basename of the URL
path, or the counter-derived fallback `file_` + (len(downloaded_files)+1)
+ `.mp3` when that basename is empty (lines 269-271); a successful
download (`dl` true models an HTTP 200) records filename to file path in
`downloaded_files`.  A failed download or any exception in the iteration
— including `requests.get` on a non-string URL value — is caught on line
286 and the loop continues. -/
def download_stems (dl : String → Bool) (folder : String) :
    List PyVal → List (String × String) → List (String × String)
  | [], acc => acc
  | url :: rest, acc =>
    match url with
    | .str s =>
      let fname0 := basename (urlPath s)
      let fname :=
        if fname0 = "" then "file_" ++ toString (acc.length + 1) ++ ".mp3"
        else fname0
      let fpath := folder ++ "/" ++ fname
      if dl s then download_stems dl folder rest (dictInsert acc fname fpath)
      else download_stems dl folder rest acc
    | _ => download_stems dl folder rest acc

/-! Full workflow (src/audial/functions/stem_split.py lines 22-303). -/

/-- Python subscript `d[k]`: `KeyError` when the key is absent,
`TypeError` on a non-dict (exception texts abbreviated; Python quotes the
missing key). -/
def pySubscript (p : PyVal) (k : String) : Except PyErr PyVal :=
  match p with
  | .dict es =>
    match lookupAssoc k es with
    | some v => .ok v
    | Option.none => .error (.exn ("KeyError: " ++ k))
  | _ => .error (.exn "TypeError: object is not subscriptable")

/-- Python `x.get(k)` on a value that may not be a dict: raises
`AttributeError` then (exception text abbreviated). -/
def pyGetAttr (p : PyVal) (k : String) : Except PyErr PyVal :=
  match p with
  | .dict es =>
    .ok (match lookupAssoc k es with
         | some v => v
         | Option.none => .none)
  | _ => .error (.exn "AttributeError: get")

/-- Python `int(q)` for the rational model of a float: truncation toward
zero, as in the timeout message of line 187. -/
def pyInt (q : ℚ) : Int :=
  if q < 0 then -((-q).floor) else q.floor

/-- Valid stem options.  Modelled from the spec: `ALL_STEM_OPTIONS` is
imported from audial/api/constants.py, which is not under src/; its value
is taken from the stem_split docstring (src/audial/functions/stem_split.py
lines 36-38), which the example scripts under src/examples exercise in
full. -/
def ALL_STEM_OPTIONS : List String :=
  ["vocals", "drums", "bass", "other", "full_song_without_vocals",
   "full_song_without_drums", "full_song_without_bass",
   "full_song_without_other"]

/-- Default stems.  Modelled from the spec: `DEFAULT_STEM_OPTIONS` is
imported from audial/api/constants.py, which is not under src/; its value
is taken from the stem_split docstring (line 36). -/
def DEFAULT_STEM_OPTIONS : List String :=
  ["vocals", "drums", "bass", "other"]

/-- Line 54: the elements of `stems` outside the valid options. -/
def invalid_stems (stems : List String) : List String :=
  stems.filter (fun s => !(ALL_STEM_OPTIONS.contains s))

/-- The `ValueError` message of lines 56-59. -/
def invalid_stems_message (stems : List String) : String :=
  "Invalid stem type(s): " ++ String.intercalate ", " (invalid_stems stems) ++
    ". Valid options are: " ++ String.intercalate ", " ALL_STEM_OPTIONS

/-- Extraction of BPM and key from the analysis response (lines 91-108):
direct fields first, then the nested "original" dict for whichever is
still `None`. -/
def extract_bpm_key (analysis : PyVal) : PyVal × PyVal :=
  match analysis with
  | .dict es =>
    let bpm := match lookupAssoc "bpm" es with
      | some v => v
      | Option.none => PyVal.none
    let key := match lookupAssoc "key" es with
      | some v => v
      | Option.none => PyVal.none
    match lookupAssoc "original" es with
    | some (.dict os) =>
      let bpm := match bpm with
        | .none =>
          (match lookupAssoc "bpm" os with
           | some v => v
           | Option.none => PyVal.none)
        | b => b
      let key := match key with
        | .none =>
          (match lookupAssoc "key" os with
           | some v => v
           | Option.none => PyVal.none)
        | k0 => k0
      (bpm, key)
    | _ => (bpm, key)
  | _ => (PyVal.none, PyVal.none)

/-- Observable side effects of a `stem_split` run.  The trace records the
effects the claims observe: directory creation, execution creation, file
upload, and outgoing download requests. -/
inductive Effect where
  | makedirs (dir : String)
  | create_execution
  | upload_file (path : String)
  | http_get (url : String)
deriving Repr, DecidableEq

/-- Outcomes supplied by the external collaborators (the `AudialProxy`
methods and wall-clock time): each call either raises or returns a
payload.  `elapsedAt i` is the elapsed wall-clock time observed at the
top of polling attempt `i`; `download_ok` tells whether the HTTP GET for
a URL succeeds with status 200. -/
structure Env where
  create_execution : Except PyErr PyVal
  upload_file : Except PyErr PyVal
  run_primary_analysis : Except PyErr PyVal
  run_stem_splitter : PyVal → PyVal → List String → PyVal → PyVal → Except PyErr PyVal
  get_execution : Nat → QueryOutcome
  elapsedAt : Nat → ℚ
  download_ok : String → Bool

/-- The try-block of lines 76-299, with the effect trace accumulated
explicitly.  Control flow is translated statement by statement:

* lines 78-85: create the execution (`execution["exeId"]` may raise
  `KeyError`), upload the file, read `file_data.get("filename")` — an
  `AttributeError` on a non-dict — and `file_data["url"]` (evaluated on
  line 88; the literal dict of lines 122-139 re-reads the same values);
* lines 88-118: run the primary analysis and extract BPM and key with
  defaults 120 and "C";
* lines 120-141: the request dict `stem_request` is assembled and then
  only serialized into a print; the call of lines 145-151 passes
  `stem_request["original"]` (rebuilt here as `original`) together with
  the stems and targets, and never passes `algorithm`, which therefore
  has no observable role;
* lines 143-169: run the stem splitter inside its own try; a dict result
  short-circuits polling and supplies `new_exe_id` via
  `stem_result.get("exeId", exe_id)`; any other outcome (non-dict result
  or a raise, swallowed on lines 165-169) leaves `result = None`;
* lines 171-213: poll when `result` is still `None`; a deadline hit
  raises the timeout `AudialError` of line 187 with `int(elapsed)`;
* lines 216-254: validate the payload and build the stem URLs, with
  `result_exe_id = result.get("exeId", new_exe_id)` (line 229);
* lines 258-299: create the results subfolder (`os.path.join` modelled as
  slash concatenation), download each URL, and either return the result
  dict of lines 291-297 or raise "Failed to download any stem files". -/
def workflow_body (env : Env) (user_id results_dir api_base_url _algorithm : String)
    (file_path : String) (stems_used : List String) (target_bpm target_key : PyVal) :
    Except PyErr PyVal × List Effect :=
  match env.create_execution with
  | .error e => (.error e, [.create_execution])
  | .ok execution =>
  match pySubscript execution "exeId" with
  | .error e => (.error e, [.create_execution])
  | .ok exe_id =>
  match env.upload_file with
  | .error e => (.error e, [.create_execution, .upload_file file_path])
  | .ok file_data =>
  let effs : List Effect := [.create_execution, .upload_file file_path]
  match pyGetAttr file_data "filename" with
  | .error e => (.error e, effs)
  | .ok filename =>
  match pySubscript file_data "url" with
  | .error e => (.error e, effs)
  | .ok furl =>
  match env.run_primary_analysis with
  | .error e => (.error e, effs)
  | .ok analysis =>
  let bk := extract_bpm_key analysis
  let bpm := match bk.1 with | .none => PyVal.int 120 | x => x
  let key := match bk.2 with | .none => PyVal.str "C" | x => x
  let ftype := file_data.getD "type" (.str "audio/mpeg")
  let original := PyVal.dict [("filename", filename), ("url", furl),
    ("type", ftype), ("bpm", bpm), ("key", key)]
  let pre : Option PyVal × PyVal :=
    match env.run_stem_splitter exe_id original stems_used target_bpm target_key with
    | .ok stem_result =>
      if stem_result.isDict then (some stem_result, stem_result.getD "exeId" exe_id)
      else (Option.none, exe_id)
    | .error _ => (Option.none, exe_id)
  let polled : Except PyErr PyVal :=
    match pre.1 with
    | some r => .ok r
    | Option.none =>
      match (poll env.get_execution env.elapsedAt).outcome with
      | .timeout q =>
        .error (.audialError ("Processing timed out after " ++
          toString (pyInt q) ++ " seconds"))
      | .finished r => .ok r
  match polled with
  | .error e => (.error e, effs)
  | .ok result =>
  match check_stem_result result with
  | .error e => (.error e, effs)
  | .ok ss =>
  let result_exe_id := result.getD "exeId" pre.2
  let stem_urls := build_stem_urls api_base_url user_id result_exe_id ss
  let result_folder := results_dir ++ "/" ++ pyStr result_exe_id ++ "_" ++
    EXECUTION_TYPE_STEM
  let downloaded := download_stems env.download_ok result_folder stem_urls []
  let effs2 := effs ++ [Effect.makedirs result_folder] ++
    stem_urls.filterMap (fun u =>
      match u with
      | .str s => some (Effect.http_get s)
      | _ => Option.none)
  if downloaded.isEmpty then
    (.error (.audialError "Failed to download any stem files"), effs2)
  else
    (.ok (PyVal.dict [("execution", result),
      ("files", PyVal.dict [("folder", .str result_folder),
        ("files", PyVal.dict (downloaded.map fun e => (e.1, PyVal.str e.2)))])]),
     effs2)

/-- The handler of lines 301-303: every exception escaping the try-block
is re-raised as `AudialError` with the text "Stem splitting failed: "
followed by `str(e)`. -/
def wrap_result : Except PyErr PyVal → Except PyErr PyVal
  | .ok v => .ok v
  | .error e => .error (.audialError ("Stem splitting failed: " ++ e.msg))

/-- Lines 62-303: the part of `stem_split` after stem validation — the
directory creation of line 70, the try-block, and the wrapping handler. -/
def stem_split_validated (env : Env) (user_id results_dir api_base_url algorithm : String)
    (file_path : String) (stems_used : List String) (target_bpm target_key : PyVal) :
    Except PyErr PyVal × List Effect :=
  let r := workflow_body env user_id results_dir api_base_url algorithm
    file_path stems_used target_bpm target_key
  (wrap_result r.1, Effect.makedirs results_dir :: r.2)

/-- The entry point `stem_split` (lines 22-303).  Validation of the
`stems` argument (lines 52-59) runs first and its `ValueError` is raised
outside the try-block, before the directory creation of line 70 and
before the proxy is used; line 62 replaces a `None` or empty (falsy)
`stems` with the defaults. -/
def stem_split (env : Env) (stems : Option (List String))
    (user_id results_dir api_base_url algorithm : String)
    (file_path : String) (target_bpm target_key : PyVal) :
    Except PyErr PyVal × List Effect :=
  match stems with
  | some l =>
    if !(invalid_stems l).isEmpty then
      (.error (.valueError (invalid_stems_message l)), [])
    else
      stem_split_validated env user_id results_dir api_base_url algorithm
        file_path (if l.isEmpty then DEFAULT_STEM_OPTIONS else l)
        target_bpm target_key
  | Option.none =>
    stem_split_validated env user_id results_dir api_base_url algorithm
      file_path DEFAULT_STEM_OPTIONS target_bpm target_key

/-! Concrete inputs used by the closed theorems and witnesses. -/

/-- A terminal-failure status payload with a service-provided message. -/
def failed_payload : PyVal :=
  .dict [("state", .str "failed"), ("error", .str "model error")]

/-- A non-terminal status payload. -/
def pending_payload : PyVal :=
  .dict [("state", .str "pending")]

/-- A completed status payload with one stem entry carrying its URL. -/
def completed_payload : PyVal :=
  .dict [("state", .str "completed"),
    ("stem", .dict [("vocals", .dict [("url", .str "http://h/v.mp3")])])]

/-- A non-terminal status payload that nevertheless carries a non-empty
stem section. -/
def pending_stem_payload : PyVal :=
  .dict [("state", .str "pending"),
    ("stem", .dict [("vocals", .dict [("url", .str "http://h/v.mp3")])])]

/-- Status-query environment whose every query reports the failed
payload. -/
def queries_all_failed : Nat → QueryOutcome := fun _ => .returns failed_payload

/-- Status-query environment for the spec scenario: pending, pending,
then completed. -/
def queries_scenario : Nat → QueryOutcome := fun i =>
  if i < 2 then .returns pending_payload else .returns completed_payload

/-- Elapsed wall-clock times for the spec scenario: the two sleeps of 5
and 5.5 seconds dominate the elapsed time seen at attempts 0, 1, 2. -/
def elapsed_scenario : Nat → ℚ := fun i =>
  if i = 0 then 0 else if i = 1 then 5 else 11

/-- A proxy environment whose submission steps succeed, whose stem-split
request raises (so the workflow must poll), and whose downloads succeed.
The status queries are supplied per concrete test below. -/
def base_env (q : Nat → QueryOutcome) : Env :=
  { create_execution := .ok (.dict [("exeId", .str "e1")])
  , upload_file := .ok (.dict [("filename", .str "song.mp3"),
      ("url", .str "http://files/song.mp3")])
  , run_primary_analysis := .ok (.dict [("bpm", .int 128), ("key", .str "Am")])
  , run_stem_splitter := fun _ _ _ _ _ => .error (.exn "HTTP 500")
  , get_execution := q
  , elapsedAt := fun _ => 0
  , download_ok := fun _ => true }

/-- Environment whose every status query reports the failed payload. -/
def env_all_failed : Env := base_env queries_all_failed

/-- Environment whose every status query reports the pending payload that
carries stem data. -/
def env_pending_stem : Env := base_env (fun _ => .returns pending_stem_payload)

/-- The value `stem_split` returns in the `env_pending_stem` run: a
success assembled from the last (non-terminal) status payload. -/
def pending_stem_success : PyVal :=
  .dict [("execution", pending_stem_payload),
    ("files", .dict [("folder", .str "/res/e1_stem"),
      ("files", .dict [("v.mp3", .str "/res/e1_stem/v.mp3")])])]

/-! Theorems. -/

/-- Sanity: the deadline constant equals the product `10 * 60` written in
the source on line 179. -/
theorem max_processing_time_eq : max_processing_time = 10 * 60 := by
  norm_num [max_processing_time]

/-- Helper: when every queried payload is non-terminal (state neither
"completed" nor "failed", receiver a dict) and the deadline is never hit,
the loop spends its whole fuel, sleeps `wait_time` at each attempt, and
finishes with the last payload. -/
theorem poll_loop_all_other (p : Nat → PyVal) (el : Nat → ℚ)
    (hp : ∀ k, stateOf (p k) = .other)
    (hel : ∀ k, ¬ el k > max_processing_time) :
    ∀ fuel i r, poll_loop (fun j => .returns (p j)) el i r fuel =
      ⟨fuel, (List.range' i fuel).map wait_time,
       .finished (if fuel = 0 then r else p (i + fuel - 1))⟩ := by
  intro fuel
  induction fuel with
  | zero => intro i r; simp [poll_loop]
  | succ n ih =>
    intro i r
    simp only [poll_loop, if_neg (hel i)]
    rw [hp i]
    simp only [ih (i + 1) (p i), List.range'_succ, List.map_cons]
    rcases Nat.eq_zero_or_pos n with hn | hn
    · subst hn; simp
    · have h1 : ¬ (n + 1 = 0) := by omega
      have h2 : ¬ (n = 0) := by omega
      simp only [if_neg h1, if_neg h2]
      have h3 : i + 1 + n - 1 = i + (n + 1) - 1 := by omega
      rw [h3]

/-- C1.  The claim says a status query returning state "failed" makes the
poller raise a service-failure error with the exact service message
immediately, with no further queries and no sleeps.  The code instead
raises the `AudialError` of line 204 inside the same `try` whose bare
`except Exception` (line 211) catches it, sleeps the fixed backoff, and
keeps polling: on a run whose every query reports state "failed" with
message "model error", the loop performs all 20 queries and 20 backoff
sleeps, ends holding the failed payload, and the workflow then fails with
"No stem data found in execution result" — wrapped by the outer handler —
rather than with any service-failure error carrying "model error". -/
theorem C1_failed_state_is_swallowed_not_raised :
    poll queries_all_failed (fun _ => 0) =
      ⟨20, List.replicate 20 backoff, .finished failed_payload⟩ ∧
    (stem_split env_all_failed (some ["vocals"]) "u1" "/res"
        "https://api.audial.ai" "primaudio" "/f.mp3" .none .none).1 =
      .error (.audialError
        "Stem splitting failed: No stem data found in execution result") := by
  exact ⟨rfl, rfl⟩

/-- C3.  Before each status-query attempt the elapsed wall-clock time is
compared against the 10-minute deadline (lines 183-187): whenever the
elapsed time observed at the top of an attempt exceeds
`max_processing_time`, the loop raises the timeout carrying that elapsed
time, performing no query and no sleep from that attempt on — even with
any positive amount of attempt budget remaining. -/
theorem C3_deadline_raises_timeout_with_elapsed
    (env : Nat → QueryOutcome) (el : Nat → ℚ) (i : Nat) (r : PyVal)
    (fuel : Nat) (hfuel : 0 < fuel)
    (h : el i > max_processing_time) :
    poll_loop env el i r fuel = ⟨0, [], .timeout (el i)⟩ := by
  cases fuel with
  | zero => omega
  | succ n => simp only [poll_loop, if_pos h]

/-- Witness for C3: at attempt 0 with elapsed 601 seconds (deadline 600)
and the full budget of 20 attempts remaining, the loop times out at once
carrying 601. -/
theorem C3_witness :
    poll_loop (fun _ => .raises) (fun _ => 601) 0 .none 20 =
      ⟨0, [], .timeout 601⟩ :=
  C3_deadline_raises_timeout_with_elapsed (fun _ => .raises) (fun _ => 601)
    0 .none 20 (by decide) (by norm_num [max_processing_time])

/-- C5.  On the status sequence pending, pending, completed, the poller
performs exactly 3 status queries, sleeps exactly twice — the attempt-0
and attempt-1 backoffs, which evaluate to 5 seconds and 11/2 = 5.5
seconds — and finishes holding the payload of the third query, with no
further queries. -/
theorem C5_scenario_pending_pending_completed :
    poll queries_scenario elapsed_scenario =
      ⟨3, [wait_time 0, wait_time 1], .finished completed_payload⟩ ∧
    wait_time 0 = 5 ∧ wait_time 1 = 11/2 := by
  refine ⟨rfl, ?_, ?_⟩ <;> norm_num [wait_time, backoff, max_backoff]

/-- C2, counterexample.  The claim says that a run exhausting the
20-attempt budget with no terminal state never yields a success built
from a non-terminal status payload.  On a run whose every status query
returns a payload with state "pending" that happens to carry a non-empty
stem section, the loop exhausts its budget, falls through to result
extraction holding that non-terminal payload, and the workflow returns a
success assembled from it. -/
theorem C2_counterexample_pending_payload_success :
    stateOf pending_stem_payload = .other ∧
    (poll env_pending_stem.get_execution env_pending_stem.elapsedAt).outcome =
      .finished pending_stem_payload ∧
    (stem_split env_pending_stem (some ["vocals"]) "u1" "/res"
        "https://api.audial.ai" "primaudio" "/f.mp3" .none .none).1 =
      .ok pending_stem_success := by
  exact ⟨rfl, rfl, rfl⟩

/-- C2, amended.  When all `max_retries` status queries return
non-terminal payloads and the deadline is never exceeded, the loop spends
the whole budget and falls through to result extraction holding the last
payload; there is no dedicated exhausted-retries error — instead, when
that (truthy dict) payload carries no usable stem section, extraction
raises the `AudialError` "No stem data found in execution result", so the
run still fails rather than returning a partial success. -/
theorem C2_exhaustion_falls_through_to_extraction
    (p : Nat → PyVal) (el : Nat → ℚ)
    (hp : ∀ k, stateOf (p k) = .other)
    (hel : ∀ k, ¬ el k > max_processing_time)
    (htr : (p 19).truthy = true)
    (hbad : hasStemData (p 19) = false) :
    poll (fun j => .returns (p j)) el =
      ⟨max_retries, (List.range' 0 max_retries).map wait_time,
       .finished (p 19)⟩ ∧
    check_stem_result (p 19) =
      .error (.audialError "No stem data found in execution result") := by
  constructor
  · have h := poll_loop_all_other p el hp hel max_retries 0 .none
    rw [poll, h]
    norm_num [max_retries]
  · have hdict := hp 19
    cases hp19 : p 19 with
    | dict es =>
      rw [hp19] at htr hbad
      simp only [check_stem_result, htr, PyVal.isDict, Bool.not_true,
        Bool.or_self, Bool.false_eq_true, if_false]
      cases h2 : lookupAssoc "stem" es with
      | none => rfl
      | some v =>
        cases v with
        | dict ss =>
          simp only [hasStemData, h2] at hbad
          simp only [Bool.not_eq_false'] at hbad
          simp [h2, hbad]
        | none => simp [h2]
        | str s => simp [h2]
        | int n => simp [h2]
        | num q => simp [h2]
        | list xs => simp [h2]
    | none => rw [hp19] at hdict; simp [stateOf] at hdict
    | str s => rw [hp19] at hdict; simp [stateOf] at hdict
    | int n => rw [hp19] at hdict; simp [stateOf] at hdict
    | num q => rw [hp19] at hdict; simp [stateOf] at hdict
    | list xs => rw [hp19] at hdict; simp [stateOf] at hdict

/-- Witness for C2 (amended): on the all-pending run the loop spends all
20 attempts and extraction fails with the no-stem-data error. -/
theorem C2_exhaustion_witness :
    poll (fun _ => .returns pending_payload) (fun _ => 0) =
      ⟨max_retries, (List.range' 0 max_retries).map wait_time,
       .finished pending_payload⟩ ∧
    check_stem_result pending_payload =
      .error (.audialError "No stem data found in execution result") :=
  C2_exhaustion_falls_through_to_extraction (fun _ => pending_payload)
    (fun _ => 0) (fun _ => rfl)
    (fun _ => by norm_num [max_processing_time]) rfl rfl

/-- C4.  In any run, the sleep performed after a non-terminal status at
attempt `i` equals `min(max_backoff, backoff * (1 + i * 0.1))`, and this
interval is monotonically non-decreasing in the attempt index. -/
theorem C4_backoff_formula_and_monotone :
    (∀ (q : Nat → QueryOutcome) (el : Nat → ℚ) (i fuel : Nat) (r p : PyVal),
        q i = .returns p → stateOf p = .other → ¬ el i > max_processing_time →
        (poll_loop q el i r (fuel + 1)).sleeps.head? =
          some (min max_backoff (backoff * (1 + (i : ℚ) * (1/10))))) ∧
    (∀ i j : Nat, i ≤ j → wait_time i ≤ wait_time j) := by
  constructor
  · intro q el i fuel r p hq hst hel
    simp only [poll_loop, if_neg hel, hq, hst]
    rfl
  · intro i j hij
    unfold wait_time
    apply min_le_min le_rfl
    have hc : (i : ℚ) ≤ (j : ℚ) := by exact_mod_cast hij
    have hb : (0 : ℚ) ≤ backoff := by norm_num [backoff]
    have h10 : (0 : ℚ) ≤ 1/10 := by norm_num
    nlinarith

/-- Witness for C4: attempt 3 of a run that has just seen a pending
status sleeps exactly the formula value, and the interval at attempt 2 is
at most the one at attempt 7. -/
theorem C4_backoff_witness :
    (poll_loop (fun _ => .returns pending_payload) (fun _ => 0) 3 .none
        (16 + 1)).sleeps.head? =
      some (min max_backoff (backoff * (1 + ((3 : ℕ) : ℚ) * (1/10)))) ∧
    wait_time 2 ≤ wait_time 7 :=
  ⟨C4_backoff_formula_and_monotone.1 (fun _ => .returns pending_payload)
      (fun _ => 0) 3 16 .none pending_payload rfl rfl
      (by norm_num [max_processing_time]),
   C4_backoff_formula_and_monotone.2 2 7 (by norm_num)⟩

/-- C6.  A payload whose state is "completed" but which carries no
non-empty stem dict — the key is absent, bound to a non-dict, or bound to
an empty dict, i.e. `hasStemData` is false — makes result extraction
raise the `AudialError` "No stem data found in execution result" instead
of returning an empty result. -/
theorem C6_completed_without_stem_data_fails (es : List (String × PyVal))
    (hstate : lookupAssoc "state" es = some (.str "completed"))
    (hbad : hasStemData (.dict es) = false) :
    stateOf (.dict es) = .completed ∧
    check_stem_result (.dict es) =
      .error (.audialError "No stem data found in execution result") := by
  refine ⟨by simp [stateOf, hstate], ?_⟩
  cases es with
  | nil => simp [lookupAssoc] at hstate
  | cons a t =>
    simp only [check_stem_result, PyVal.truthy, PyVal.isDict,
      List.isEmpty_cons, Bool.not_false, Bool.not_true, Bool.or_false,
      Bool.false_eq_true, if_false]
    cases h2 : lookupAssoc "stem" (a :: t) with
    | none => rfl
    | some v =>
      cases v with
      | dict ss =>
        simp only [hasStemData, h2] at hbad
        simp only [Bool.not_eq_false'] at hbad
        simp [h2, hbad]
      | none => simp [h2]
      | str s => simp [h2]
      | int n => simp [h2]
      | num q => simp [h2]
      | list xs => simp [h2]

/-- Witness for C6: the minimal completed payload with no stem section. -/
theorem C6_witness :
    stateOf (.dict [("state", .str "completed")]) = .completed ∧
    check_stem_result (.dict [("state", .str "completed")]) =
      .error (.audialError "No stem data found in execution result") :=
  C6_completed_without_stem_data_fails [("state", .str "completed")] rfl rfl

/-- C7.  For a stem entry that carries a truthy explicit "url" value,
that value is used unchanged; for an entry with no truthy "url" but a
known string filename, the URL is synthesized deterministically as base
URL + "/files/" + user id + "/execution/" + execution id + "/stem/" +
filename, the service's path convention with output kind "stem". -/
theorem C7_url_used_unchanged_or_synthesized
    (api u : String) (exe : PyVal) (k : String) :
    (∀ (es : List (String × PyVal)) (url : PyVal),
        lookupAssoc "url" es = some url → url.truthy = true →
        stem_url_for api u exe k (.dict es) = url) ∧
    (∀ (es : List (String × PyVal)) (f : String),
        (lookupAssoc "url" es = Option.none ∨
         ∃ url, lookupAssoc "url" es = some url ∧ url.truthy = false) →
        lookupAssoc "filename" es = some (.str f) →
        stem_url_for api u exe k (.dict es) =
          .str (rstripSlash api ++ "/files/" ++ u ++ "/execution/" ++
            pyStr exe ++ "/stem/" ++ f)) := by
  constructor
  · intro es url hurl htr
    simp [stem_url_for, hurl, htr]
  · intro es f hurl hf
    rcases hurl with h | ⟨url, h, hfalse⟩
    · simp [stem_url_for, h, PyVal.get, hf, synth_stem_url, pyStr]
    · simp [stem_url_for, h, hfalse, PyVal.get, hf, synth_stem_url, pyStr]

/-- Witness for C7: an entry with an explicit URL keeps it; an entry with
only a filename gets the synthesized path. -/
theorem C7_witness :
    stem_url_for "https://api.audial.ai" "u1" (.str "e1") "vocals"
        (.dict [("url", .str "http://h/v.mp3")]) = .str "http://h/v.mp3" ∧
    stem_url_for "https://api.audial.ai" "u1" (.str "e1") "drums"
        (.dict [("filename", .str "d.mp3")]) =
      .str (rstripSlash "https://api.audial.ai" ++ "/files/" ++ "u1" ++
        "/execution/" ++ pyStr (.str "e1") ++ "/stem/" ++ "d.mp3") :=
  ⟨(C7_url_used_unchanged_or_synthesized "https://api.audial.ai" "u1"
      (.str "e1") "vocals").1 [("url", .str "http://h/v.mp3")]
      (.str "http://h/v.mp3") rfl rfl,
   (C7_url_used_unchanged_or_synthesized "https://api.audial.ai" "u1"
      (.str "e1") "drums").2 [("filename", .str "d.mp3")] "d.mp3"
      (Or.inl rfl) rfl⟩

/-- C8, counterexample.  The claim says that an entry lacking both an
explicit URL and a filename gets no fabricated URL, and that a
counter-derived fallback name is used instead.  The code does fabricate a
URL: `stem_info.get("filename")` yields `None`, which the f-string of
line 249 renders as the literal string "None", and the download phase
then uses "None" as the local filename (the counter fallback of line 271
only triggers on an empty basename). -/
theorem C8_counterexample_missing_filename_fabricates_url :
    stem_url_for "https://api.audial.ai" "u1" (.str "e1") "vocals"
        (.dict []) =
      .str "https://api.audial.ai/files/u1/execution/e1/stem/None" ∧
    basename
        (urlPath "https://api.audial.ai/files/u1/execution/e1/stem/None") =
      "None" := by
  exact ⟨rfl, rfl⟩

/-- C8, amended.  For an entry lacking both a truthy explicit URL and a
filename, the code synthesizes a URL whose filename component is the
string "None" (Python's rendering of the missing value); the
counter-derived fallback name is applied only in the download phase, to
the local filename, when a URL's path basename is empty. -/
theorem C8_missing_filename_uses_None_string
    (api u : String) (exe : PyVal) (k : String)
    (es : List (String × PyVal))
    (hurl : lookupAssoc "url" es = Option.none)
    (hf : lookupAssoc "filename" es = Option.none) :
    stem_url_for api u exe k (.dict es) =
      .str (synth_stem_url api u exe "None") := by
  simp [stem_url_for, hurl, PyVal.get, hf, pyStr]

/-- Witness for C8 (amended): the empty entry gets the "None" URL. -/
theorem C8_amended_witness :
    stem_url_for "https://api.audial.ai" "u1" (.str "e1") "vocals"
        (.dict []) =
      .str (synth_stem_url "https://api.audial.ai" "u1" (.str "e1") "None") :=
  C8_missing_filename_uses_None_string "https://api.audial.ai" "u1"
    (.str "e1") "vocals" [] rfl rfl

/-- C9, counterexample.  The claim says every exception raised inside the
workflow escapes wrapped, and in particular that the service-failure
`AudialError` raised in the poll loop (line 204) gets its prefix twice.
On a run whose every status query reports state "failed" with message
"model error", the error that reaches the caller is the wrapped
no-stem-data error — the poll loop caught and discarded its own
service-failure raise — and it is not the doubly-prefixed message the
claim predicts. -/
theorem C9_counterexample_not_doubly_wrapped :
    (stem_split env_all_failed (some ["vocals"]) "u1" "/res"
        "https://api.audial.ai" "primaudio" "/f.mp3" .none .none).1 =
      .error (.audialError
        "Stem splitting failed: No stem data found in execution result") ∧
    ("Stem splitting failed: No stem data found in execution result" ≠
      "Stem splitting failed: Stem splitting failed: model error") := by
  refine ⟨rfl, ?_⟩
  simp

/-- C9, amended.  An exception that propagates out of the try-block
reaches the caller as an `AudialError` reading "Stem splitting failed: "
followed by the original message, applied exactly once; the
service-failure `AudialError` raised on line 204, however, is caught by
the poll loop's own handler, which sleeps the fixed backoff and lets
polling continue from the next attempt, so it never escapes and its
prefix never appears twice. -/
theorem C9_wrapped_once_and_poll_swallows_failure :
    (∀ (env : Env) (u rd api alg fp : String) (l : List String)
        (tb tk : PyVal) (e : PyErr),
        invalid_stems l = [] →
        (workflow_body env u rd api alg fp
            (if l.isEmpty then DEFAULT_STEM_OPTIONS else l) tb tk).1 =
          .error e →
        (stem_split env (some l) u rd api alg fp tb tk).1 =
          .error (.audialError ("Stem splitting failed: " ++ e.msg))) ∧
    (∀ (q : Nat → QueryOutcome) (el : Nat → ℚ) (i fuel : Nat) (r p : PyVal),
        q i = .returns p → stateOf p = .failed →
        ¬ el i > max_processing_time →
        poll_loop q el i r (fuel + 1) =
          ⟨(poll_loop q el (i + 1) p fuel).queries + 1,
           backoff :: (poll_loop q el (i + 1) p fuel).sleeps,
           (poll_loop q el (i + 1) p fuel).outcome⟩) := by
  constructor
  · intro env u rd api alg fp l tb tk e hvalid hwf
    simp only [stem_split, hvalid, List.isEmpty_nil, Bool.not_true,
      Bool.false_eq_true, if_false, stem_split_validated]
    rw [hwf]
    rfl
  · intro q el i fuel r p hq hst hel
    simp only [poll_loop, if_neg hel, hq, hst]

/-- Witness for C9 (amended): on the all-failed run the workflow error is
wrapped exactly once, and attempt 0 of the poll loop — whose query
reports "failed" — is followed by a backoff sleep and a continuation of
the loop rather than by an escaping raise. -/
theorem C9_amended_witness :
    (stem_split env_all_failed (some ["vocals"]) "u1" "/res"
        "https://api.audial.ai" "primaudio" "/f.mp3" .none .none).1 =
      .error (.audialError ("Stem splitting failed: " ++
        (PyErr.audialError "No stem data found in execution result").msg)) ∧
    poll_loop queries_all_failed (fun _ => 0) 0 .none (19 + 1) =
      ⟨(poll_loop queries_all_failed (fun _ => 0) 1 failed_payload 19).queries + 1,
       backoff :: (poll_loop queries_all_failed (fun _ => 0) 1 failed_payload 19).sleeps,
       (poll_loop queries_all_failed (fun _ => 0) 1 failed_payload 19).outcome⟩ :=
  ⟨C9_wrapped_once_and_poll_swallows_failure.1 env_all_failed "u1" "/res"
      "https://api.audial.ai" "primaudio" "/f.mp3" ["vocals"] .none .none
      (.audialError "No stem data found in execution result") rfl rfl,
   C9_wrapped_once_and_poll_swallows_failure.2 queries_all_failed
      (fun _ => 0) 0 19 .none failed_payload rfl rfl
      (by norm_num [max_processing_time])⟩

/-- C10.  A `stems` argument containing an element outside the valid
options makes `stem_split` raise the `ValueError` of lines 56-59 — not an
`AudialError`, since the raise happens before the try-block — and the
effect trace is empty: no results directory is created, no execution is
created, no file is uploaded. -/
theorem C10_invalid_stems_valueerror_before_any_effect
    (env : Env) (l : List String) (u rd api alg fp : String)
    (tb tk : PyVal) (s : String)
    (hs : s ∈ l) (hinv : s ∉ ALL_STEM_OPTIONS) :
    stem_split env (some l) u rd api alg fp tb tk =
      (.error (.valueError (invalid_stems_message l)), []) := by
  have hmem : s ∈ invalid_stems l := by
    unfold invalid_stems
    rw [List.mem_filter]
    refine ⟨hs, ?_⟩
    simpa using hinv
  have hne : (invalid_stems l).isEmpty = false := by
    cases hl : invalid_stems l with
    | nil => rw [hl] at hmem; simp at hmem
    | cons a t => rfl
  simp [stem_split, hne]

/-- Witness for C10: the argument list containing "nope" is rejected with
the `ValueError` and an empty effect trace. -/
theorem C10_witness :
    stem_split (base_env queries_all_failed) (some ["vocals", "nope"]) "u1"
        "/res" "https://api.audial.ai" "primaudio" "/f.mp3" .none .none =
      (.error (.valueError (invalid_stems_message ["vocals", "nope"])), []) :=
  C10_invalid_stems_valueerror_before_any_effect (base_env queries_all_failed)
    ["vocals", "nope"] "u1" "/res" "https://api.audial.ai" "primaudio"
    "/f.mp3" .none .none "nope" (by simp) (by simp [ALL_STEM_OPTIONS])

end Audial
